import Mathlib

/-!
Verification development for `cmod_functions/plasma_parameters.py`, a thin
data-access and formula library for Alcator C-Mod diagnostic signals.

The module is embedded shallowly:
* signal samples and times are rationals, arrays are lists;
* the remote MDSplus connection is an abstract environment mapping
  (tree name, shot number, path string) to the fetched array;
* Python runtime failures (NameError, TypeError) are an explicit error type,
  and the NaN produced by the mean of an empty numpy array is `Option.none`.

A central fact of the source module: its only import line is
`import MDSplus as mds`; the name `np` is never bound, so every evaluation
of `np.pi`, `np.amin` or `np.amax` raises `NameError` at run time.  This is
modelled by `module_np = none` below.
-/

/-- Python runtime errors that the embedded functions can raise. -/
inductive PyErr where
  | nameError (name : String)
  | typeError
deriving DecidableEq, Repr

/-- The interface of the numpy module as used by the source file: `np.pi`,
`np.amin`, `np.amax`.  `amin`/`amax` raise on an empty array, hence the
`Except` result. -/
structure Numpy where
  pi : ℚ
  amin : List ℚ → Except PyErr ℚ
  amax : List ℚ → Except PyErr ℚ

/-- The binding of the name `np` in the module `plasma_parameters.py`.
The module's only import is `import MDSplus as mds` (line 1); numpy is never
imported, so the name `np` is unbound: looking it up raises
`NameError("name np is not defined")`. -/
def module_np : Option Numpy := none

/-- An open MDSplus connection (`mds.Connection("alcdata")` with a tree
opened via `c.openTree(tree, shot_number)`): `get tree shot path` is the
array returned by `c.get(path).data()` in that context.  Only successful
fetches are modelled; a failed fetch propagates from the client library and
never reaches the code under study. -/
structure MdsConn where
  get : String → ℕ → String → List ℚ

/-- `c.get(f"dim_of({dataname})").data()`: the time axis of a signal. -/
def MdsConn.dimOf (c : MdsConn) (tree : String) (shot : ℕ) (dataname : String) : List ℚ :=
  c.get tree shot ("dim_of(" ++ dataname ++ ")")

/-- The MDSplus contract for a well-formed remote store: the dimension
(time axis) of every node has the same length as the node's data. -/
def MdsConn.Wf (c : MdsConn) : Prop :=
  ∀ tree shot path, (c.dimOf tree shot path).length = (c.get tree shot path).length

/-- `get_line_integrated_density` (plasma_parameters.py lines 4-27): opens
tree "electrons" for the shot and returns
(time, data) for node `\ELECTRONS::TOP.TCI.RESULTS.NL_04`, untransformed. -/
def get_line_integrated_density (c : MdsConn) (shot_number : ℕ) : List ℚ × List ℚ :=
  let dataname := "\\ELECTRONS::TOP.TCI.RESULTS.NL_04"
  let line_integrated_density := c.get "electrons" shot_number dataname
  let line_integrated_density_time := c.dimOf "electrons" shot_number dataname
  (line_integrated_density_time, line_integrated_density)

/-- `get_line_averaged_density` (lines 30-54): opens tree "electrons" and
returns (time, data) for `\ELECTRONS::TOP.TCI.RESULTS.INVERSION.NEBAR_EFIT`,
untransformed. -/
def get_line_averaged_density (c : MdsConn) (shot_number : ℕ) : List ℚ × List ℚ :=
  let dataname := "\\ELECTRONS::TOP.TCI.RESULTS.INVERSION.NEBAR_EFIT"
  let line_averaged_density := c.get "electrons" shot_number dataname
  let line_averaged_density_time := c.dimOf "electrons" shot_number dataname
  (line_averaged_density_time, line_averaged_density)

/-- `get_plasma_current` (lines 56-77): opens tree "magnetics" and returns
(time, data) for the path expression `\MAGNETICS::IP/1000` — the division by
1000 is part of the path string evaluated remotely; the function applies no
transformation of its own. -/
def get_plasma_current (c : MdsConn) (shot_number : ℕ) : List ℚ × List ℚ :=
  let plasma_current_dataname := "\\MAGNETICS::IP/1000"
  let plasma_current := c.get "magnetics" shot_number plasma_current_dataname
  let plasma_current_time := c.dimOf "magnetics" shot_number plasma_current_dataname
  (plasma_current_time, plasma_current)

/-- `get_toroidal_magnetic_field` (lines 80-101): opens tree "magnetics" and
returns (time, data) for `\MAGNETICS::BTOR`, the data negated elementwise
(`-c.get(...).data()`), the time axis untransformed. -/
def get_toroidal_magnetic_field (c : MdsConn) (shot_number : ℕ) : List ℚ × List ℚ :=
  let toroidal_magnetic_field_dataname := "\\MAGNETICS::BTOR"
  let toroidal_magnetic_field :=
    (c.get "magnetics" shot_number toroidal_magnetic_field_dataname).map (fun x => -x)
  let toroidal_magnetic_field_time :=
    c.dimOf "magnetics" shot_number toroidal_magnetic_field_dataname
  (toroidal_magnetic_field_time, toroidal_magnetic_field)

/-- `numpy.ndarray.mean()`: sum divided by length; on an empty array numpy
returns NaN (with a warning), modelled as `none`. -/
def npMean (xs : List ℚ) : Option ℚ :=
  if xs = [] then none else some (xs.sum / xs.length)

/-- The selection-and-mean stage of `average_plasma_parameter`
(lines 127-131):
`time_interval = (variable_time < time_end) & (variable_time > time_start)`,
`variable_range = variable_data[time_interval]`,
`variable_mean = variable_range.mean()`.
The elementwise numpy comparison of an array with `None` raises `TypeError`,
so reaching this stage with a `None` bound is an error. -/
def select_and_mean (variable_data variable_time : List ℚ)
    (time_start time_end : Option ℚ) : Except PyErr (Option ℚ) :=
  match time_start, time_end with
  | some ts, some te =>
      let time_interval := variable_time.map (fun t => decide (t < te) && decide (t > ts))
      let variable_range :=
        (variable_data.zip time_interval).filterMap (fun q => if q.2 then some q.1 else none)
      Except.ok (npMean variable_range)
  | _, _ => Except.error PyErr.typeError

/-- `average_plasma_parameter` (lines 104-131):
`if (time_start is None) & (time_end is None): time_start, time_end =
np.amin(variable_time), np.amax(variable_time)`, then the strict-window
selection and mean.  Evaluating `np.amin` requires the module binding of
`np` (`module_np`), which does not exist, so the defaulting branch raises
`NameError` at run time. -/
def average_plasma_parameter (variable_data variable_time : List ℚ)
    (time_start : Option ℚ := none) (time_end : Option ℚ := none) :
    Except PyErr (Option ℚ) :=
  if time_start.isNone && time_end.isNone then
    match module_np with
    | none => Except.error (PyErr.nameError "np")
    | some np =>
        match np.amin variable_time, np.amax variable_time with
        | Except.ok ts, Except.ok te =>
            select_and_mean variable_data variable_time (some ts) (some te)
        | Except.error e, _ => Except.error e
        | _, Except.error e => Except.error e
  else
    select_and_mean variable_data variable_time time_start time_end

/-- `greenwald_density_limit` (lines 134-147):
`return average_plasma_current / (np.pi * minor_radius * minor_radius)`.
Evaluating `np.pi` requires the module binding of `np` (`module_np`), which
does not exist, so the call raises `NameError` at run time; with numpy
bound it would return current / (pi * radius^2). -/
def greenwald_density_limit (average_plasma_current : ℚ)
    (minor_radius : ℚ := 22/100) : Except PyErr ℚ :=
  match module_np with
  | none => Except.error (PyErr.nameError "np")
  | some np =>
      Except.ok (average_plasma_current / (np.pi * minor_radius * minor_radius))

/-- `greenwald_fraction` (lines 150-162):
`return average_line_averaged_density / greenwald_density`.  Pure division,
no clamping, no use of `np`. -/
def greenwald_fraction (average_line_averaged_density greenwald_density : ℚ) : ℚ :=
  average_line_averaged_density / greenwald_density

/-- A connection whose every fetch returns the array `[1, 2]`; a concrete
well-formed remote store used to witness the accessor length invariant. -/
def constConn : MdsConn := ⟨fun _ _ _ => [1, 2]⟩

/-- Boolean-mask indexing agrees with filtering the zipped pairs: indexing
`data` by the mask `time.map p` keeps exactly the data components of the
pairs of `data.zip time` whose time satisfies `p`. -/
theorem zip_mask_filterMap (p : ℚ → Bool) :
    ∀ (data time : List ℚ),
    (data.zip (time.map p)).filterMap (fun q => if q.2 then some q.1 else none)
      = ((data.zip time).filter (fun q => p q.2)).map Prod.fst := by
  intro data
  induction data with
  | nil => intro time; simp
  | cons d ds ih =>
    intro time
    cases time with
    | nil => simp
    | cons t rest =>
      by_cases h : p t
      · simp [h, ih rest]
      · simp [h, ih rest]

/-- C2: with both bounds supplied, `average_plasma_parameter` selects exactly
the samples whose time is strictly greater than `time_start` and strictly
less than `time_end` and returns their arithmetic mean; in particular on
data `[1,2,3,4,5]`, time `[0,1,2,3,4]`, window `(1, 3)` only the sample at
time 2 is selected and the result is 3. -/
theorem average_plasma_parameter_strict_mean :
    (∀ (variable_data variable_time : List ℚ) (time_start time_end : ℚ),
      average_plasma_parameter variable_data variable_time (some time_start) (some time_end)
        = Except.ok (npMean (((variable_data.zip variable_time).filter
            (fun q => decide (time_start < q.2 ∧ q.2 < time_end))).map Prod.fst)))
    ∧ average_plasma_parameter [1, 2, 3, 4, 5] [0, 1, 2, 3, 4] (some 1) (some 3)
        = Except.ok (some 3) := by
  constructor
  · intro variable_data variable_time time_start time_end
    have h1 : average_plasma_parameter variable_data variable_time
        (some time_start) (some time_end)
        = select_and_mean variable_data variable_time (some time_start) (some time_end) := by
      simp [average_plasma_parameter]
    rw [h1]
    show Except.ok (npMean _) = _
    rw [zip_mask_filterMap (fun t => decide (t < time_end) && decide (t > time_start))]
    have h2 : ((variable_data.zip variable_time).filter
          (fun q => decide (q.2 < time_end) && decide (q.2 > time_start)))
        = ((variable_data.zip variable_time).filter
          (fun q => decide (time_start < q.2 ∧ q.2 < time_end))) := by
      refine List.filter_congr (fun q _ => ?_)
      simp [Bool.decide_and, Bool.and_comm]
    rw [h2]
  · simp [average_plasma_parameter, select_and_mean, npMean, List.filterMap_cons]
    norm_num

/-- C3: the claim (and the function's own docstring) says that with both
bounds omitted the window defaults to the extremes of the time array and the
mean over the strict interior is returned, here 3.  The code instead raises
`NameError` at `np.amin`, because the module never imports numpy.  This
theorem evaluates the embedded code at that failing input. -/
theorem average_plasma_parameter_default_raises :
    average_plasma_parameter [1, 2, 3, 4, 5] [0, 1, 2, 3, 4]
      = Except.error (PyErr.nameError "np") := rfl

/-- C4: defaults are substituted only when both bounds are `None`.  When
exactly one bound is supplied, the bounds are passed as-is to the
selection stage (`select_and_mean`), whose elementwise comparison with the
remaining `None` raises `TypeError`. -/
theorem average_plasma_parameter_no_default_single_bound
    (variable_data variable_time : List ℚ) (time_start time_end : Option ℚ)
    (h : time_start.isNone ≠ time_end.isNone) :
    average_plasma_parameter variable_data variable_time time_start time_end
      = select_and_mean variable_data variable_time time_start time_end
    ∧ average_plasma_parameter variable_data variable_time time_start time_end
      = Except.error PyErr.typeError := by
  cases time_start <;> cases time_end <;>
    simp_all [average_plasma_parameter, select_and_mean]

/-- Witness for C4 at data `[1]`, time `[0]`, `time_start = 0`,
`time_end = None`. -/
theorem average_plasma_parameter_no_default_single_bound_witness :
    (some (0:ℚ)).isNone ≠ (none : Option ℚ).isNone
    ∧ average_plasma_parameter [1] [0] (some 0) none = Except.error PyErr.typeError :=
  ⟨by simp,
   (average_plasma_parameter_no_default_single_bound [1] [0] (some 0) none (by simp)).2⟩

/-- C5: `greenwald_fraction` is exactly the quotient of its arguments, with
no clamping to `[0, 1]`: at `(0.5, 1)` it returns `0.5` and at `(2, 1)` it
returns `2`. -/
theorem greenwald_fraction_no_clamp :
    (∀ n g : ℚ, greenwald_fraction n g = n / g)
    ∧ greenwald_fraction (1/2) 1 = 1/2
    ∧ greenwald_fraction 2 1 = 2 := by
  refine ⟨fun n g => rfl, ?_, ?_⟩
  · norm_num [greenwald_fraction]
  · norm_num [greenwald_fraction]

/-- C6: for every connection state and shot number,
`get_toroidal_magnetic_field` returns the elementwise negation of the raw
values fetched at `\MAGNETICS::BTOR` as data, and the raw time axis
(`dim_of`) unmodified. -/
theorem get_toroidal_magnetic_field_negates (c : MdsConn) (shot_number : ℕ) :
    get_toroidal_magnetic_field c shot_number
      = (c.get "magnetics" shot_number "dim_of(\\MAGNETICS::BTOR)",
         (c.get "magnetics" shot_number "\\MAGNETICS::BTOR").map (fun x => -x)) := rfl

/-- C7: for every connection state and shot number, `get_plasma_current`
returns the values fetched at the path expression `\MAGNETICS::IP/1000`
(the division by 1000 is part of the remote path expression) with no
further transformation, together with that node's raw time axis. -/
theorem get_plasma_current_raw (c : MdsConn) (shot_number : ℕ) :
    get_plasma_current c shot_number
      = (c.get "magnetics" shot_number "dim_of(\\MAGNETICS::IP/1000)",
         c.get "magnetics" shot_number "\\MAGNETICS::IP/1000") := rfl

/-- C8, amended: if both window bounds are supplied and no sample's time
lies strictly inside the window, `average_plasma_parameter` returns the
mean of an empty selection — numpy's NaN, modelled `none` — rather than an
error or a sentinel value.  (With both bounds omitted, the call raises
`NameError` at `np.amin` before any selection, see the counterexample.) -/
theorem average_plasma_parameter_empty_window
    (variable_data variable_time : List ℚ) (time_start time_end : ℚ)
    (h : ∀ t ∈ variable_time, ¬(time_start < t ∧ t < time_end)) :
    average_plasma_parameter variable_data variable_time (some time_start) (some time_end)
      = Except.ok none := by
  have h1 : average_plasma_parameter variable_data variable_time
      (some time_start) (some time_end)
      = select_and_mean variable_data variable_time (some time_start) (some time_end) := by
    simp [average_plasma_parameter]
  rw [h1]
  show Except.ok (npMean _) = _
  rw [zip_mask_filterMap (fun t => decide (t < time_end) && decide (t > time_start))]
  have h2 : ((variable_data.zip variable_time).filter
        (fun q => decide (q.2 < time_end) && decide (q.2 > time_start))) = [] := by
    rw [List.filter_eq_nil_iff]
    intro q hq
    have hqt : q.2 ∈ variable_time := (List.of_mem_zip hq).2
    have := h q.2 hqt
    simp only [Bool.and_eq_true, decide_eq_true_eq, not_and] at this ⊢
    intro hlt hgt
    exact this hgt hlt
  rw [h2]
  simp [npMean]

/-- Counterexample for C8 as originally stated: with data `[7]`, time `[5]`
and both bounds omitted, the defaulted window would be `(5, 5)` with no
sample strictly inside, so the claim predicts the NaN mean of an empty
selection (`ok none`); the code instead raises `NameError` at `np.amin`
before any selection happens, because the module never imports numpy. -/
theorem average_plasma_parameter_defaulted_empty_window_cex :
    average_plasma_parameter [7] [5] none none = Except.error (PyErr.nameError "np")
    ∧ average_plasma_parameter [7] [5] none none ≠ Except.ok none :=
  ⟨rfl, by simp [average_plasma_parameter, module_np]⟩

/-- Witness for C8: data `[10, 20]`, time `[0, 4]`, window `(1, 3)` — no
sample time lies strictly inside, and the result is `ok none` (NaN). -/
theorem average_plasma_parameter_empty_window_witness :
    (∀ t ∈ ([0, 4] : List ℚ), ¬((1:ℚ) < t ∧ t < 3))
    ∧ average_plasma_parameter [10, 20] [0, 4] (some 1) (some 3) = Except.ok none :=
  ⟨by norm_num,
   average_plasma_parameter_empty_window [10, 20] [0, 4] 1 3 (by norm_num)⟩

/-- C9: on a well-formed remote store (each node's time axis as long as its
data, the MDSplus contract), every accessor returns a time array and a data
array of equal length. -/
theorem accessors_equal_lengths (c : MdsConn) (shot_number : ℕ) (h : c.Wf) :
    ((get_line_integrated_density c shot_number).1.length
        = (get_line_integrated_density c shot_number).2.length)
    ∧ ((get_line_averaged_density c shot_number).1.length
        = (get_line_averaged_density c shot_number).2.length)
    ∧ ((get_plasma_current c shot_number).1.length
        = (get_plasma_current c shot_number).2.length)
    ∧ ((get_toroidal_magnetic_field c shot_number).1.length
        = (get_toroidal_magnetic_field c shot_number).2.length) := by
  refine ⟨h _ _ _, h _ _ _, h _ _ _, ?_⟩
  simpa [get_toroidal_magnetic_field] using
    h "magnetics" shot_number "\\MAGNETICS::BTOR"

/-- Witness for C9 on the concrete well-formed connection `constConn`. -/
theorem accessors_equal_lengths_witness :
    constConn.Wf
    ∧ ((get_plasma_current constConn 0).1.length
        = (get_plasma_current constConn 0).2.length) :=
  ⟨fun _ _ _ => rfl, (accessors_equal_lengths constConn 0 (fun _ _ _ => rfl)).2.2.1⟩

/-- C10: the module leaves the name `np` unbound (its only import is
MDSplus), so every call of `greenwald_density_limit` and every call of
`average_plasma_parameter` with both bounds omitted raises `NameError`
instead of returning a value. -/
theorem module_np_unbound :
    module_np = none
    ∧ (∀ (I r : ℚ), greenwald_density_limit I r = Except.error (PyErr.nameError "np"))
    ∧ (∀ (variable_data variable_time : List ℚ),
        average_plasma_parameter variable_data variable_time none none
          = Except.error (PyErr.nameError "np")) :=
  ⟨rfl, fun _ _ => rfl, fun _ _ => rfl⟩

/-- C1: the claim (and the function's own docstring) says
`greenwald_density_limit` returns current / (pi * radius^2), about 6.577 at
`(1.0, 0.22)`.  The code instead raises `NameError` at `np.pi`, because the
module never imports numpy.  This theorem evaluates the embedded code at
that failing input (the radius taking its default `0.22`). -/
theorem greenwald_density_limit_raises :
    greenwald_density_limit 1 = Except.error (PyErr.nameError "np") := rfl
